import Mathlib

/-!
# Verification of the Veridat Swedish VAT engine against its specification

Shallow embedding of the repository's core components:

* `SV` — `.skills/svensk-ekonomi/scripts/validators.py` (identifier validators;
  only the `is_valid` component of `ValidationResult` is modelled, the
  human-readable messages are elided because no claim mentions them).
* `VP` — `python-api/app/svensk_ekonomi/vat_processor.py` (aggregation engine,
  journal entry generator, report assembler).  Python `Decimal` arithmetic is
  modelled by `ℚ`: both are exact for addition, subtraction, absolute value
  and comparison of decimal inputs.
* `SIE` — `.skills/svensk-ekonomi/scripts/sie_export.py` (SIE4 exporter).
  Lines are modelled as `List Char`; `datetime.now().strftime("%Y%m%d")` is
  modelled by passing the formatted current date as an explicit argument.

Strings that Python manipulates character by character are modelled as
`List Char`; Python's `re.sub(r'[^0-9]', '', s)` is `List.filter Char.isDigit`
(both keep exactly the ASCII digits `'0'`–`'9'`).
-/

attribute [local semireducible] Rat.add Rat.sub Rat.mul Rat.inv Rat.ofScientific

namespace Veridat

/-- Digit value of a character, as in Python's `int(d)` on a digit char. -/
def digitVal (c : Char) : Nat := c.toNat - 48

/-- One term of the Luhn-style loop of `validators.py` / `vat_processor.py`:
`if i % 2 == 0: doubled = d * 2; checksum += doubled if doubled < 10 else doubled - 9
 else: checksum += d`. -/
def luhnLoop (i : Nat) : List Nat → Nat
  | [] => 0
  | d :: rest =>
      (if i % 2 = 0 then (if d * 2 < 10 then d * 2 else d * 2 - 9) else d) +
        luhnLoop (i + 1) rest

/-- `for i in range(9): ...` over the digit list (the source always runs this on a
list of length 10, so the loop covers all but the check digit). -/
def luhnChecksum (ds : List Nat) : Nat := luhnLoop 0 (ds.take 9)

/-- `expected_check = (10 - (checksum % 10)) % 10`. -/
def expectedCheck (ds : List Nat) : Nat := (10 - (luhnChecksum ds % 10)) % 10

namespace SV

/-- `validators.py`, `SwedishValidators.validate_org_number`: strip non-digits,
require exactly 10 digits, first digit must not be `'0'`, Luhn checksum over the
first 9 digits must match the 10th. -/
def validate_org_number (org_nr : List Char) : Bool :=
  let clean := org_nr.filter Char.isDigit
  if clean.length = 10 then
    if clean.getD 0 ' ' = '0' then false
    else
      let digits := clean.map digitVal
      decide (digits.getD 9 0 = expectedCheck digits)
  else false

/-- Python `str.strip()`: drop whitespace from both ends. -/
def pyStrip (s : List Char) : List Char :=
  ((s.dropWhile Char.isWhitespace).reverse.dropWhile Char.isWhitespace).reverse

/-- `validators.py`, `SwedishValidators.validate_vat_number`: non-empty, starts
with `"SE"` after upper-casing and stripping, exactly 12 digits overall, the
first 10 of which form a valid organisation number and the last two are `"01"`. -/
def validate_vat_number (vat_nr : List Char) : Bool :=
  if vat_nr = [] then false
  else
    let upper := pyStrip (vat_nr.map Char.toUpper)
    if upper.take 2 = ['S', 'E'] then
      let digits := vat_nr.filter Char.isDigit
      if digits.length = 12 then
        if validate_org_number (digits.take 10) then
          decide (digits.drop 10 = ['0', '1'])
        else false
      else false
    else false

end SV

/-- One term of the checksum as claim C5 words it: "for even 0-based index `i`,
double the digit (minus 9 when the doubled value is at least 10) and, for odd
`i`, the digit itself". -/
def claimTerm (i d : Nat) : Nat :=
  if i % 2 = 0 then (if 10 ≤ d * 2 then d * 2 - 9 else d * 2) else d

/-- The checksum `S` of claim C5, "computed over the first 9 digits". -/
def claimSum (i : Nat) : List Nat → Nat
  | [] => 0
  | d :: rest => claimTerm i d + claimSum (i + 1) rest

/-- Organisation-number validity exactly as claim C5 states it: after stripping
non-digit characters exactly 10 digits remain, the first digit is not 0, and
the 10th digit equals `(10 − (S mod 10)) mod 10` for the checksum `S` above. -/
def org_number_claimed (s : List Char) : Bool :=
  let clean := s.filter Char.isDigit
  let ds := clean.map digitVal
  decide (clean.length = 10) && !(decide (clean.getD 0 ' ' = '0')) &&
    decide ((10 - (claimSum 0 (ds.take 9) % 10)) % 10 = ds.getD 9 0)

namespace VP

/-- `vat_processor.py` `VATRate`: the four Swedish VAT rates. -/
inductive VATRate
  | standard
  | reduced12
  | reduced6
  | zero
  deriving DecidableEq

/-- The `Decimal` value carried by each rate. -/
def VATRate.val : VATRate → ℚ
  | .standard => 25 / 100
  | .reduced12 => 12 / 100
  | .reduced6 => 6 / 100
  | .zero => 0

/-- One row of the input DataFrame (columns `amount`, `subAmount`, `vat`,
`vatRate`, plus the `id` used in finding labels).  The `Decimal(str(...))`
conversion of the numeric cells is modelled by the exact values in `ℚ`;
`vatRate` is taken after the `int(...)` conversion done by `_get_vat_rate`. -/
structure Row where
  id : String
  amount : ℚ
  subAmount : ℚ
  vat : ℚ
  vatRate : Int
  deriving DecidableEq

/-- `VATProcessor._get_vat_rate`: percent → rate; unrecognized percents fall
back to the standard 25 % rate. -/
def get_vat_rate (p : Int) : VATRate :=
  if p = 25 then .standard
  else if p = 12 then .reduced12
  else if p = 6 then .reduced6
  else if p = 0 then .zero
  else .standard

/-- Python's `abs` on `Decimal`. -/
def pyAbs (q : ℚ) : ℚ := if q < 0 then -q else q

/-- Floor of a rational, via flooring integer division. -/
def floorQ (q : ℚ) : ℤ := Int.fdiv q.num q.den

/-- `Decimal.quantize(Decimal("0.01"), rounding=ROUND_HALF_UP)`: round to two
decimal places, ties away from zero. -/
def quantize2HalfUp (q : ℚ) : ℚ :=
  if q < 0 then -((floorQ ((-q) * 100 + 1 / 2) : ℚ) / 100)
  else ((floorQ (q * 100 + 1 / 2) : ℚ) / 100)

/-- `vat_processor.py`'s own `SwedishValidators.validate_org_number` (this copy
has no leading-zero check, unlike the one in `validators.py`). -/
def validate_org_number (org_nr : List Char) : Bool :=
  let clean := org_nr.filter Char.isDigit
  if clean.length = 10 then
    let digits := clean.map digitVal
    decide (digits.getD 9 0 = expectedCheck digits)
  else false

/-- `SwedishValidators.validate_vat_calculation` with the embedded-flow default
tolerance `0.02`: valid iff `|vat − round2(net·rate)| ≤ 0.02`. -/
def validate_vat_calculation (net vat : ℚ) (rate : VATRate) : Bool :=
  decide (pyAbs (vat - quantize2HalfUp (net * rate.val)) ≤ 2 / 100)

/-- `SwedishValidators.validate_gross_amount`, tolerance `0.02`. -/
def validate_gross_amount (net vat gross : ℚ) : Bool :=
  decide (pyAbs (gross - (net + vat)) ≤ 2 / 100)

/-- A `ValidationError` finding; the free-text `message` is elided since no
claim depends on it. -/
structure ValidationError where
  fieldName : String
  severity : String
  deriving DecidableEq

/-- The running per-rate totals of `VATReport`. -/
structure Totals where
  sales_25 : ℚ
  sales_12 : ℚ
  sales_6 : ℚ
  sales_0 : ℚ
  outgoing_vat_25 : ℚ
  outgoing_vat_12 : ℚ
  outgoing_vat_6 : ℚ
  purchases_25 : ℚ
  purchases_12 : ℚ
  purchases_0 : ℚ
  incoming_vat : ℚ
  deriving DecidableEq

/-- The all-zero initial `VATReport` totals. -/
def zeroTotals : Totals := ⟨0, 0, 0, 0, 0, 0, 0, 0, 0, 0, 0⟩

/-- A journal entry as emitted by `_create_journal_entries`. -/
structure JournalEntry where
  account : String
  account_name : String
  debit : ℚ
  credit : ℚ
  description : String
  deriving DecidableEq

/-- The organisation-number finding of `process_transactions`: when a
non-empty organisation number is supplied and fails validation, one
error-severity finding against the `org_number` field is recorded. -/
def org_findings (org_number : List Char) : List ValidationError :=
  if org_number ≠ [] ∧ validate_org_number org_number = false then
    [⟨"org_number", "error"⟩]
  else []

/-- `df[df['amount'] > 0]`. -/
def is_income (r : Row) : Bool := decide (0 < r.amount)

/-- `df[df['amount'] < 0]`. -/
def is_cost (r : Row) : Bool := decide (r.amount < 0)

/-- The warning findings one income row contributes in `process_transactions`:
the VAT-calculation check (skipped for the zero rate) and the gross-amount
check, both recorded with severity `"warning"`. -/
def income_warnings (row : Row) : List ValidationError :=
  let vat_rate := get_vat_rate row.vatRate
  (if vat_rate ≠ VATRate.zero ∧ validate_vat_calculation row.subAmount row.vat vat_rate = false
    then [⟨"transaction_" ++ row.id, "warning"⟩] else []) ++
  (if validate_gross_amount row.subAmount row.vat row.amount = false
    then [⟨"transaction_" ++ row.id, "warning"⟩] else [])

/-- The bucket accumulation one income row performs in `process_transactions`:
net and VAT are added to the outgoing bucket of the resolved rate. -/
def incomeTotals (t : Totals) (row : Row) : Totals :=
  let net := row.subAmount
  let vat := row.vat
  match get_vat_rate row.vatRate with
  | .standard =>
      { t with sales_25 := t.sales_25 + net, outgoing_vat_25 := t.outgoing_vat_25 + vat }
  | .reduced12 =>
      { t with sales_12 := t.sales_12 + net, outgoing_vat_12 := t.outgoing_vat_12 + vat }
  | .reduced6 =>
      { t with sales_6 := t.sales_6 + net, outgoing_vat_6 := t.outgoing_vat_6 + vat }
  | .zero => { t with sales_0 := t.sales_0 + net }

/-- One iteration of the income loop of `process_transactions`: append this
row's warnings and accumulate its amounts. -/
def incomeStep (st : Totals × List ValidationError) (row : Row) :
    Totals × List ValidationError :=
  (incomeTotals st.1 row, st.2 ++ income_warnings row)

/-- One iteration of the cost loop of `process_transactions`: absolute values
of net and VAT; the source's `if`/`elif` chain has branches for the 25 %, 12 %
and 0 % rates only — a 6 % cost row matches no branch and is dropped, and a
0 % cost row accumulates net only. -/
def costStep (t : Totals) (row : Row) : Totals :=
  let vat_rate := get_vat_rate row.vatRate
  let net := pyAbs row.subAmount
  let vat := pyAbs row.vat
  match vat_rate with
  | .standard =>
      { t with purchases_25 := t.purchases_25 + net, incoming_vat := t.incoming_vat + vat }
  | .reduced12 =>
      { t with purchases_12 := t.purchases_12 + net, incoming_vat := t.incoming_vat + vat }
  | .zero => { t with purchases_0 := t.purchases_0 + net }
  | .reduced6 => t

/-- `VATProcessor._validate_vat_balance`: emits an error finding when the
recomputed net VAT differs from the reported one by more than `0.01`. -/
def validate_vat_balance (total_outgoing_vat incoming_vat net_vat : ℚ) :
    List ValidationError :=
  if 1 / 100 < pyAbs (total_outgoing_vat - incoming_vat - net_vat) then
    [⟨"vat_balance", "error"⟩]
  else []

/-- `VATProcessor._create_journal_entries`: one single-sided entry per emitted
bucket, in the source's fixed order; buckets that are not positive emit
nothing. -/
def create_journal_entries (t : Totals) : List JournalEntry :=
  (if 0 < t.sales_25 then
      [⟨"3010", "Försäljning tjänster 25% moms", 0, t.sales_25, "Intäkter med 25% moms"⟩]
    else []) ++
  (if 0 < t.sales_0 then
      [⟨"3011", "Försäljning tjänster momsfri", 0, t.sales_0,
        "Momsfria intäkter (t.ex. roaming)"⟩]
    else []) ++
  (if 0 < t.outgoing_vat_25 then
      [⟨"2611", "Utgående moms 25%", 0, t.outgoing_vat_25, "Utgående moms på försäljning"⟩]
    else []) ++
  (if 0 < t.purchases_25 + t.purchases_12 + t.purchases_0 then
      [⟨"6590", "Övriga externa tjänster", t.purchases_25 + t.purchases_12 + t.purchases_0, 0,
        "Kostnader för avgifter och abonnemang"⟩]
    else []) ++
  (if 0 < t.incoming_vat then
      [⟨"2641", "Ingående moms", t.incoming_vat, 0, "Avdragsgill ingående moms"⟩]
    else [])

/-- The report built by `process_transactions`.  The `period`, `company_name`
and `org_number` metadata strings are carried through unchanged by the source
and are elided here; no claim depends on them. -/
structure ProcessedReport where
  totals : Totals
  total_outgoing_vat : ℚ
  net_vat : ℚ
  journal_entries : List JournalEntry
  validations : List ValidationError
  is_valid : Bool
  deriving DecidableEq

/-- `VATProcessor.process_transactions`: validate the organisation number when
supplied, partition rows by the sign of `amount`, fold the income and cost
loops, compute the totals, run the balance cross-check, generate the journal
entries and assemble the report. -/
def process_transactions (rows : List Row) (org_number : List Char) : ProcessedReport :=
  let orgFindings := org_findings org_number
  let income := rows.filter is_income
  let costs := rows.filter is_cost
  let st := income.foldl incomeStep (zeroTotals, orgFindings)
  let t := costs.foldl costStep st.1
  let total_outgoing_vat := t.outgoing_vat_25 + t.outgoing_vat_12 + t.outgoing_vat_6
  let net_vat := total_outgoing_vat - t.incoming_vat
  let validations := st.2 ++ validate_vat_balance total_outgoing_vat t.incoming_vat net_vat
  { totals := t
    total_outgoing_vat := total_outgoing_vat
    net_vat := net_vat
    journal_entries := create_journal_entries t
    validations := validations
    is_valid := !(validations.any (fun v => v.severity == "error")) }

/-- The `vat_summary` object of `VATProcessor._to_dict`.  The `float(...)`
boundary conversions of `_to_dict` are modelled as the identity on the exact
values: the same conversion is applied uniformly to every field, and the spec
accepts precision loss only at this external boundary. -/
structure VatSummary where
  outgoing_vat : ℚ
  incoming_vat : ℚ
  net_vat : ℚ
  to_pay : ℚ
  to_refund : ℚ
  deriving DecidableEq

/-- The `vat_summary` part of `VATProcessor._to_dict`. -/
def to_dict_vat_summary (rep : ProcessedReport) : VatSummary :=
  { outgoing_vat := rep.total_outgoing_vat
    incoming_vat := rep.totals.incoming_vat
    net_vat := rep.net_vat
    to_pay := if 0 < rep.net_vat then rep.net_vat else 0
    to_refund := if rep.net_vat < 0 then pyAbs rep.net_vat else 0 }

/-- Sum of the debit column of a journal-entry list. -/
def sumDebit (l : List JournalEntry) : ℚ := (l.map (fun e => e.debit)).sum

/-- Sum of the credit column of a journal-entry list. -/
def sumCredit (l : List JournalEntry) : ℚ := (l.map (fun e => e.credit)).sum

end VP

namespace SIE

/-- A line of SIE4 output, as a character list (the source joins the lines with
a newline; every claim about the output is line-based). -/
abbrev Line := List Char

/-- A posting of a verification: the `{account, debit, credit}` dicts passed to
`add_verification`. -/
structure SIETrans where
  account : String
  debit : ℚ
  credit : ℚ
  deriving DecidableEq

/-- A verification as stored by `add_verification`.  The source stores a
`datetime` and formats it with `strftime("%Y%m%d")` at serialization time;
dates are modelled as the formatted strings. -/
structure Verification where
  number : Int
  date : String
  description : String
  transactions : List SIETrans
  deriving DecidableEq

/-- The `SIEExporter` builder state.  Python's account dict and balance dict
are modelled as insertion-ordered pair lists (keys are distinct everywhere in
this repository's flow); serialization sorts them by key, as `sorted` does. -/
structure SIEExporter where
  company_name : String
  org_number : String
  fiscal_year_start : String
  fiscal_year_end : String
  accounts : List (String × String)
  verifications : List Verification
  account_balances : List (String × ℚ)
  deriving DecidableEq

/-- `SIEExporter._clean_org_number`: keep digits only. -/
def clean_org_number (s : String) : String :=
  String.mk (s.toList.filter Char.isDigit)

/-- `SIEExporter._format_amount`.  The source renders the Python number
(`str(float(amount))` for decimals, `str(amount)` otherwise); it is modelled by
the canonical rendering of the exact value.  What the claims rely on is that
the rendering is a deterministic function of the amount alone. -/
def format_amount (q : ℚ) : Line := (toString q).toList

/-- Code-point lexicographic comparison of character lists (Python string
comparison). -/
def charListLt : List Char → List Char → Bool
  | [], [] => false
  | [], _ :: _ => true
  | _ :: _, [] => false
  | a :: as, b :: bs => if a < b then true else if b < a then false else charListLt as bs

/-- Insert a keyed pair into a key-sorted list, keeping it sorted. -/
def insertByKey {α : Type} (p : String × α) : List (String × α) → List (String × α)
  | [] => [p]
  | q :: rest =>
      if charListLt p.1.toList q.1.toList then p :: q :: rest else q :: insertByKey p rest

/-- `sorted(...)` over the items of an account or balance dict: sort the pair
list by key. -/
def sortByKey {α : Type} (l : List (String × α)) : List (String × α) :=
  l.foldr insertByKey []

/-- `description.replace('"', "'")` in the `#VER` line. -/
def replace_quotes (s : String) : Line :=
  s.toList.map (fun c => if c = '"' then Char.ofNat 39 else c)

/-- `SIEExporter.export`: the fixed header (with the generation date, modelled
as the explicit `gen_date` argument), the sorted chart of accounts, the opening
balances when any exist, and one block per verification with one `#TRANS` line
per posting whose signed amount `debit − credit` is non-zero. -/
def export_sie (e : SIEExporter) (gen_date : String) (year : Int) : List Line :=
  let header : List Line :=
    ["#FLAGGA 0".toList, "#FORMAT PC8".toList, "#SIETYP 4".toList,
     "#PROGRAM \"svensk-ekonomi\" 1.0".toList,
     "#GEN ".toList ++ gen_date.toList,
     "#FNAMN \"".toList ++ e.company_name.toList ++ "\"".toList,
     "#ORGNR ".toList ++ e.org_number.toList,
     "#RAR 0 ".toList ++ (toString year).toList ++ e.fiscal_year_start.toList ++
       " ".toList ++ (toString year).toList ++ e.fiscal_year_end.toList,
     "#KPTYP BAS2024".toList, []]
  let konto : List Line :=
    ["# Kontoplan".toList] ++
    (sortByKey e.accounts).map
      (fun p => "#KONTO ".toList ++ p.1.toList ++ " \"".toList ++ p.2.toList ++ "\"".toList) ++
    [[]]
  let ib : List Line :=
    if e.account_balances ≠ [] then
      ["# Ingående balanser".toList] ++
      (sortByKey e.account_balances).map
        (fun p => "#IB 0 ".toList ++ p.1.toList ++ " ".toList ++ format_amount p.2) ++
      [[]]
    else []
  let vers : List Line :=
    if e.verifications ≠ [] then
      ["# Verifikationer".toList] ++
      (e.verifications.map (fun v =>
        ["#VER \"\" ".toList ++ (toString v.number).toList ++ " ".toList ++ v.date.toList ++
           " \"".toList ++ replace_quotes v.description ++ "\"".toList,
         "\x7b".toList] ++
        ((v.transactions.filter (fun tr => decide (tr.debit - tr.credit ≠ 0))).map
          (fun tr => "    #TRANS ".toList ++ tr.account.toList ++ " \x7b\x7d ".toList ++
            format_amount (tr.debit - tr.credit))) ++
        ["\x7d".toList])).flatten ++
      [[]]
    else []
  header ++ konto ++ ib ++ vers

/-- The pieces of the `process_transactions` output dict that
`create_sie_from_vat_report` consumes. -/
structure VatReportObj where
  company_name : String
  org_number : String
  period : String
  journal_entries : List VP.JournalEntry
  deriving DecidableEq

/-- The fixed `standard_accounts` table of `create_sie_from_vat_report`, in its
insertion order. -/
def standard_accounts : List (String × String) :=
  [("1510", "Kundfordringar"), ("2440", "Leverantörsskulder"),
   ("2611", "Utgående moms 25%"), ("2621", "Utgående moms 12%"),
   ("2631", "Utgående moms 6%"), ("2641", "Ingående moms"),
   ("2650", "Momsredovisning"), ("3010", "Försäljning tjänster 25%"),
   ("3011", "Försäljning tjänster momsfri"), ("3012", "Roaming-intäkter"),
   ("6590", "Övriga externa tjänster"), ("6591", "Plattformsavgifter"),
   ("6592", "Abonnemangskostnader")]

/-- `create_sie_from_vat_report`: build an exporter from the report, add the
standard accounts, add one verification holding the journal-entry postings
(when any exist) dated `now_date` — the source stamps it with
`datetime.now()` — and export (the `#GEN` header uses the same current
date). -/
def create_sie_from_vat_report (rep : VatReportObj) (year : Int) (ver_number : Int)
    (now_date : String) : List Line :=
  let transactions := rep.journal_entries.map
    (fun en => (⟨en.account, en.debit, en.credit⟩ : SIETrans))
  let e : SIEExporter :=
    { company_name := rep.company_name
      org_number := clean_org_number rep.org_number
      fiscal_year_start := "0101"
      fiscal_year_end := "1231"
      accounts := standard_accounts
      verifications :=
        if transactions ≠ [] then
          [⟨ver_number, now_date, "Momsredovisning " ++ rep.period, transactions⟩]
        else []
      account_balances := [] }
  export_sie e now_date year

/-- Blank out the lines whose text depends on the generation date: the `#GEN`
header line and the `#VER` verification lines. -/
def date_redact (l : Line) : Line :=
  if l.take 4 = "#GEN".toList ∨ l.take 4 = "#VER".toList then [] else l

end SIE

/-! ## Helper lemmas about the aggregation engine -/

namespace VP

theorem foldl_incomeStep_fst (rows : List Row) :
    ∀ (t : Totals) (vs : List ValidationError),
      (rows.foldl incomeStep (t, vs)).1 = rows.foldl incomeTotals t := by
  induction rows with
  | nil => intro t vs; rfl
  | cons r rest ih =>
      intro t vs
      simp only [List.foldl_cons, incomeStep]
      exact ih _ _

theorem foldl_incomeStep_snd (rows : List Row) :
    ∀ (t : Totals) (vs : List ValidationError),
      (rows.foldl incomeStep (t, vs)).2 = vs ++ (rows.map income_warnings).flatten := by
  induction rows with
  | nil => intro t vs; simp
  | cons r rest ih =>
      intro t vs
      simp only [List.foldl_cons, incomeStep, List.map_cons, List.flatten_cons]
      rw [ih, List.append_assoc]

theorem validate_vat_balance_self (a b : ℚ) : validate_vat_balance a b (a - b) = [] := by
  unfold validate_vat_balance
  have h : a - b - (a - b) = 0 := by ring
  rw [h]
  norm_num [pyAbs]

theorem process_totals_def (rows : List Row) (org : List Char) :
    (process_transactions rows org).totals =
      (rows.filter is_cost).foldl costStep ((rows.filter is_income).foldl incomeTotals zeroTotals) := by
  simp only [process_transactions]
  rw [foldl_incomeStep_fst]

theorem process_validations_def (rows : List Row) (org : List Char) :
    (process_transactions rows org).validations =
      org_findings org ++ ((rows.filter is_income).map income_warnings).flatten := by
  simp only [process_transactions]
  rw [foldl_incomeStep_fst, foldl_incomeStep_snd, validate_vat_balance_self, List.append_nil]

theorem mem_ite_singleton {α : Type} {c : Prop} [Decidable c] {x a : α}
    (h : a ∈ (if c then [x] else [])) : c ∧ a = x := by
  by_cases hc : c
  · simp [hc] at h
    exact ⟨hc, h⟩
  · simp [hc] at h

theorem journal_sums (t : Totals) :
    sumDebit (create_journal_entries t) =
      (if 0 < t.purchases_25 + t.purchases_12 + t.purchases_0 then
        t.purchases_25 + t.purchases_12 + t.purchases_0 else 0) +
      (if 0 < t.incoming_vat then t.incoming_vat else 0)
    ∧ sumCredit (create_journal_entries t) =
      (if 0 < t.sales_25 then t.sales_25 else 0) +
      (if 0 < t.sales_0 then t.sales_0 else 0) +
      (if 0 < t.outgoing_vat_25 then t.outgoing_vat_25 else 0) := by
  constructor
  · simp [create_journal_entries, sumDebit,
      apply_ite (List.map (fun e : JournalEntry => e.debit)), apply_ite List.sum]
  · simp [create_journal_entries, sumCredit,
      apply_ite (List.map (fun e : JournalEntry => e.credit)), apply_ite List.sum]
    ring

theorem process_org_indep (rows : List Row) (o1 o2 : List Char) :
    (process_transactions rows o1).totals = (process_transactions rows o2).totals
    ∧ (process_transactions rows o1).total_outgoing_vat =
      (process_transactions rows o2).total_outgoing_vat
    ∧ (process_transactions rows o1).net_vat = (process_transactions rows o2).net_vat
    ∧ (process_transactions rows o1).journal_entries =
      (process_transactions rows o2).journal_entries := by
  refine ⟨?_, ?_, ?_, ?_⟩ <;>
    · simp only [process_transactions]
      simp only [foldl_incomeStep_fst]

theorem mem_create_journal_entries (t : Totals) (e : JournalEntry)
    (he : e ∈ create_journal_entries t) :
    (e.debit = 0 ∨ e.credit = 0) ∧ 0 ≤ e.debit ∧ 0 ≤ e.credit
    ∧ ((e.account = "3010" ∨ e.account = "3011" ∨ e.account = "2611") → e.debit = 0)
    ∧ ((e.account = "6590" ∨ e.account = "2641") → e.credit = 0) := by
  simp only [create_journal_entries, List.mem_append] at he
  rcases he with ((((h | h) | h) | h) | h)
  · obtain ⟨hc, rfl⟩ := mem_ite_singleton h
    exact ⟨Or.inl rfl, le_refl 0, le_of_lt hc, fun _ => rfl, fun hx => by simp at hx⟩
  · obtain ⟨hc, rfl⟩ := mem_ite_singleton h
    exact ⟨Or.inl rfl, le_refl 0, le_of_lt hc, fun _ => rfl, fun hx => by simp at hx⟩
  · obtain ⟨hc, rfl⟩ := mem_ite_singleton h
    exact ⟨Or.inl rfl, le_refl 0, le_of_lt hc, fun _ => rfl, fun hx => by simp at hx⟩
  · obtain ⟨hc, rfl⟩ := mem_ite_singleton h
    exact ⟨Or.inr rfl, le_of_lt hc, le_refl 0, fun hx => by simp at hx, fun _ => rfl⟩
  · obtain ⟨hc, rfl⟩ := mem_ite_singleton h
    exact ⟨Or.inr rfl, le_of_lt hc, le_refl 0, fun hx => by simp at hx, fun _ => rfl⟩

end VP

/-! ## Claim theorems -/

/-- C1 (counterexample): the claim "for every input transaction list the
emitted journal entries balance: sum of debits equals sum of credits to within
0.01" is false.  A single consistent 25 % sale (gross 125, net 100, VAT 25)
yields two credit-only entries totalling 125 and no debit entry, a difference
of 125. -/
theorem c1_journal_balance_cex :
    ¬ (VP.pyAbs
        (VP.sumDebit (VP.process_transactions [⟨"s1", 125, 100, 25, 25⟩] []).journal_entries -
         VP.sumCredit (VP.process_transactions [⟨"s1", 125, 100, 25, 25⟩] []).journal_entries)
       ≤ 1 / 100) := by
  decide

/-- C1 (amended): the journal entries are single-sided, so instead of
balancing, the debit total is exactly the cost-side buckets that are emitted
(the aggregated cost line plus incoming VAT, each only when positive) and the
credit total is exactly the revenue-side buckets that are emitted (25 % sales,
0 % sales and 25 % outgoing VAT, each only when positive); no balancing
counterpart entries exist, so the two totals agree only when those sums happen
to coincide. -/
theorem c1_journal_sums (rows : List VP.Row) (org : List Char) :
    VP.sumDebit (VP.process_transactions rows org).journal_entries =
      (if 0 < (VP.process_transactions rows org).totals.purchases_25 +
              (VP.process_transactions rows org).totals.purchases_12 +
              (VP.process_transactions rows org).totals.purchases_0 then
        (VP.process_transactions rows org).totals.purchases_25 +
        (VP.process_transactions rows org).totals.purchases_12 +
        (VP.process_transactions rows org).totals.purchases_0 else 0) +
      (if 0 < (VP.process_transactions rows org).totals.incoming_vat then
        (VP.process_transactions rows org).totals.incoming_vat else 0)
    ∧ VP.sumCredit (VP.process_transactions rows org).journal_entries =
      (if 0 < (VP.process_transactions rows org).totals.sales_25 then
        (VP.process_transactions rows org).totals.sales_25 else 0) +
      (if 0 < (VP.process_transactions rows org).totals.sales_0 then
        (VP.process_transactions rows org).totals.sales_0 else 0) +
      (if 0 < (VP.process_transactions rows org).totals.outgoing_vat_25 then
        (VP.process_transactions rows org).totals.outgoing_vat_25 else 0) :=
  VP.journal_sums (VP.process_transactions rows org).totals

/-- C2 (counterexample): the claim "every cost transaction accumulates the
absolute value of its VAT amount into the incoming-VAT total" is false: a cost
row whose resolved rate is 6 % matches no branch of the source's `if`/`elif`
chain, so the cost row `{amount: -106, subAmount: -100, vat: -6, vatRate: 6}`
leaves the incoming-VAT total at 0 rather than 6. -/
theorem c2_cost_vat_cex :
    (VP.process_transactions [⟨"c1", -106, -100, -6, 6⟩] []).totals.incoming_vat ≠
      VP.pyAbs (⟨"c1", -106, -100, -6, 6⟩ : VP.Row).vat := by
  decide

/-- C2 (amended): for a cost transaction the engine takes absolute values of
net and VAT, but only the 25 % and 12 % rates accumulate both the VAT into the
incoming-VAT total and the net into their cost bucket; a 0 %-rate cost
accumulates net only, and a 6 %-rate cost is dropped entirely.  Amount
validators are still never run on cost transactions: the recorded findings are
those of the income rows alone. -/
theorem c2_cost_accumulation :
    (∀ (t : VP.Totals) (row : VP.Row),
      (VP.costStep t row).incoming_vat = t.incoming_vat +
        (if VP.get_vat_rate row.vatRate = VP.VATRate.standard ∨
            VP.get_vat_rate row.vatRate = VP.VATRate.reduced12 then VP.pyAbs row.vat else 0)
      ∧ (VP.costStep t row).purchases_25 = t.purchases_25 +
        (if VP.get_vat_rate row.vatRate = VP.VATRate.standard then VP.pyAbs row.subAmount else 0)
      ∧ (VP.costStep t row).purchases_12 = t.purchases_12 +
        (if VP.get_vat_rate row.vatRate = VP.VATRate.reduced12 then VP.pyAbs row.subAmount else 0)
      ∧ (VP.costStep t row).purchases_0 = t.purchases_0 +
        (if VP.get_vat_rate row.vatRate = VP.VATRate.zero then VP.pyAbs row.subAmount else 0)
      ∧ (VP.get_vat_rate row.vatRate = VP.VATRate.reduced6 → VP.costStep t row = t))
    ∧ (∀ (rows : List VP.Row) (org : List Char),
        (VP.process_transactions rows org).validations =
          (VP.process_transactions (rows.filter VP.is_income) org).validations) := by
  constructor
  · intro t row
    rcases h : VP.get_vat_rate row.vatRate <;>
      simp [VP.costStep, h]
  · intro rows org
    rw [VP.process_validations_def, VP.process_validations_def, List.filter_filter]
    simp

/-- C2 (witness for the amended theorem): the 6 %-rate cost row is dropped
entirely. -/
theorem c2_cost_accumulation_witness :
    VP.get_vat_rate ((⟨"c1", -106, -100, -6, 6⟩ : VP.Row).vatRate) = VP.VATRate.reduced6 ∧
    VP.costStep VP.zeroTotals ⟨"c1", -106, -100, -6, 6⟩ = VP.zeroTotals :=
  ⟨by decide, (c2_cost_accumulation.1 VP.zeroTotals ⟨"c1", -106, -100, -6, 6⟩).2.2.2.2 (by decide)⟩

/-- C3: for every input, the report's total outgoing VAT is the sum of the
25 %, 12 % and 6 % outgoing-VAT buckets, net VAT is total outgoing minus
incoming, and in the external `vat_summary` `to_pay` is net VAT when positive
(else 0) and `to_refund` is |net VAT| when negative (else 0). -/
theorem c3_vat_totals (rows : List VP.Row) (org : List Char) :
    (VP.process_transactions rows org).total_outgoing_vat =
      (VP.process_transactions rows org).totals.outgoing_vat_25 +
      (VP.process_transactions rows org).totals.outgoing_vat_12 +
      (VP.process_transactions rows org).totals.outgoing_vat_6
    ∧ (VP.process_transactions rows org).net_vat =
      (VP.process_transactions rows org).total_outgoing_vat -
      (VP.process_transactions rows org).totals.incoming_vat
    ∧ (VP.to_dict_vat_summary (VP.process_transactions rows org)).outgoing_vat =
      (VP.process_transactions rows org).total_outgoing_vat
    ∧ (VP.to_dict_vat_summary (VP.process_transactions rows org)).incoming_vat =
      (VP.process_transactions rows org).totals.incoming_vat
    ∧ (VP.to_dict_vat_summary (VP.process_transactions rows org)).net_vat =
      (VP.to_dict_vat_summary (VP.process_transactions rows org)).outgoing_vat -
      (VP.to_dict_vat_summary (VP.process_transactions rows org)).incoming_vat
    ∧ (VP.to_dict_vat_summary (VP.process_transactions rows org)).to_pay =
      (if 0 < (VP.process_transactions rows org).net_vat then
        (VP.process_transactions rows org).net_vat else 0)
    ∧ (VP.to_dict_vat_summary (VP.process_transactions rows org)).to_refund =
      (if (VP.process_transactions rows org).net_vat < 0 then
        VP.pyAbs (VP.process_transactions rows org).net_vat else 0) :=
  ⟨rfl, rfl, rfl, rfl, rfl, rfl, rfl⟩

/-- C7: a transaction with gross amount exactly 0 falls in neither the sales
nor the cost partition, and inserting it anywhere into the input leaves the
whole report — every bucket total, the journal entries, all VAT totals, even
the findings — unchanged. -/
theorem c7_zero_amount_frame (pre post : List VP.Row) (z : VP.Row) (org : List Char)
    (hz : z.amount = 0) :
    (pre ++ z :: post).filter VP.is_income =
      pre.filter VP.is_income ++ post.filter VP.is_income
    ∧ (pre ++ z :: post).filter VP.is_cost =
      pre.filter VP.is_cost ++ post.filter VP.is_cost
    ∧ VP.process_transactions (pre ++ z :: post) org =
      VP.process_transactions (pre ++ post) org := by
  have h1 : VP.is_income z = false := by simp [VP.is_income, hz]
  have h2 : VP.is_cost z = false := by simp [VP.is_cost, hz]
  have e1 : (pre ++ z :: post).filter VP.is_income =
      pre.filter VP.is_income ++ post.filter VP.is_income := by
    simp [List.filter_append, List.filter_cons, h1]
  have e2 : (pre ++ z :: post).filter VP.is_cost =
      pre.filter VP.is_cost ++ post.filter VP.is_cost := by
    simp [List.filter_append, List.filter_cons, h2]
  refine ⟨e1, e2, ?_⟩
  simp only [VP.process_transactions, e1, e2, List.filter_append]

/-- C7 (witness): inserting the zero-amount row `{amount: 0, subAmount: 5,
vat: 1, vatRate: 25}` into the empty input changes nothing. -/
theorem c7_zero_amount_frame_witness :
    (⟨"z", 0, 5, 1, 25⟩ : VP.Row).amount = 0 ∧
    VP.process_transactions ([] ++ (⟨"z", 0, 5, 1, 25⟩ : VP.Row) :: []) [] =
      VP.process_transactions ([] ++ []) [] :=
  ⟨by decide, (c7_zero_amount_frame [] [] ⟨"z", 0, 5, 1, 25⟩ [] (by decide)).2.2⟩

/-- C9: the defensive VAT-balance cross-check is unreachable: applied to the
values the report carries it returns no finding (the report's `net_vat` is
assigned exactly the expression the check recomputes), and the report's
findings list is exactly the organisation-number finding plus the income-row
warnings — the balance check contributes nothing for any input. -/
theorem c9_balance_check_unreachable (rows : List VP.Row) (org : List Char) :
    VP.validate_vat_balance (VP.process_transactions rows org).total_outgoing_vat
        (VP.process_transactions rows org).totals.incoming_vat
        (VP.process_transactions rows org).net_vat = []
    ∧ (VP.process_transactions rows org).validations =
        VP.org_findings org ++ ((rows.filter VP.is_income).map VP.income_warnings).flatten := by
  constructor
  · simp only [VP.process_transactions]
    exact VP.validate_vat_balance_self _ _
  · exact VP.process_validations_def rows org

theorem luhnLoop_eq_claimSum (l : List Nat) : ∀ i, luhnLoop i l = claimSum i l := by
  induction l with
  | nil => intro i; rfl
  | cons d rest ih =>
      intro i
      simp only [luhnLoop, claimSum, claimTerm, ih]
      congr 1
      split_ifs <;> omega

theorem rstrip_cons (a : Char) (l : List Char) (h : a.isWhitespace = false) :
    ((a :: l).reverse.dropWhile Char.isWhitespace).reverse =
      a :: ((l.reverse.dropWhile Char.isWhitespace).reverse) := by
  rw [List.reverse_cons, List.dropWhile_append]
  by_cases hl : (l.reverse.dropWhile Char.isWhitespace).isEmpty
  · rw [if_pos hl]
    have he : l.reverse.dropWhile Char.isWhitespace = [] := by
      cases hx : l.reverse.dropWhile Char.isWhitespace
      · rfl
      · rw [hx] at hl; simp at hl
    rw [he]
    simp [List.dropWhile_cons, h]
  · rw [if_neg hl]
    simp [List.reverse_append]

theorem pyStrip_take2 (t : List Char) :
    (SV.pyStrip ('S' :: 'E' :: t)).take 2 = ['S', 'E'] := by
  unfold SV.pyStrip
  have h1 : List.dropWhile Char.isWhitespace ('S' :: 'E' :: t) = 'S' :: 'E' :: t := by
    rw [List.dropWhile_cons, if_neg (by decide : ¬('S'.isWhitespace = true))]
  rw [h1, rstrip_cons 'S' _ (by decide), rstrip_cons 'E' _ (by decide)]
  rfl

theorem filter_digits_SE (s : List Char) :
    ('S' :: 'E' :: (s ++ ['0', '1'])).filter Char.isDigit =
      s.filter Char.isDigit ++ ['0', '1'] := by
  simp [List.filter_append]

/-- C4: for every character string `orgnr`, the VAT-number validator accepts
`"SE" ++ orgnr ++ "01"` exactly when the organisation-number validator accepts
`orgnr`. -/
theorem c4_vat_org_equiv (s : List Char) :
    SV.validate_vat_number ('S' :: 'E' :: (s ++ ['0', '1'])) = SV.validate_org_number s := by
  unfold SV.validate_vat_number
  dsimp only
  rw [if_neg (by simp : ¬('S' :: 'E' :: (s ++ ['0', '1']) = []))]
  have hm : List.map Char.toUpper ('S' :: 'E' :: (s ++ ['0', '1'])) =
      'S' :: 'E' :: List.map Char.toUpper (s ++ ['0', '1']) := by
    simp only [List.map_cons]
    rfl
  rw [hm, pyStrip_take2, if_pos rfl, filter_digits_SE]
  by_cases hfs : (s.filter Char.isDigit).length = 10
  · have hlen12 : (s.filter Char.isDigit ++ ['0', '1']).length = 12 := by simp [hfs]
    have ht : (s.filter Char.isDigit ++ ['0', '1']).take 10 = s.filter Char.isDigit := by
      rw [← hfs]
      exact List.take_left _ _
    have hd : (s.filter Char.isDigit ++ ['0', '1']).drop 10 = ['0', '1'] := by
      rw [← hfs]
      exact List.drop_left _ _
    rw [if_pos hlen12, ht, hd]
    have horg : SV.validate_org_number (s.filter Char.isDigit) = SV.validate_org_number s := by
      unfold SV.validate_org_number
      dsimp only
      rw [List.filter_filter]
      simp
    rw [horg]
    cases hb : SV.validate_org_number s <;> simp [hb]
  · have hlen12 : ¬((s.filter Char.isDigit ++ ['0', '1']).length = 12) := by
      simp only [List.length_append, List.length_cons, List.length_nil]
      omega
    rw [if_neg hlen12]
    unfold SV.validate_org_number
    dsimp only
    rw [if_neg hfs]

/-- C5: the organisation-number validator of `validators.py` accepts a string
exactly under the conditions claim C5 states — after stripping non-digits
exactly 10 digits remain, the first digit is not 0, and the 10th digit equals
`(10 − (S mod 10)) mod 10` for the described doubling checksum `S` over the
first 9 digits (`org_number_claimed` transcribes the claim's wording). -/
theorem c5_org_spec_equiv (s : List Char) :
    SV.validate_org_number s = org_number_claimed s := by
  unfold SV.validate_org_number org_number_claimed
  dsimp only
  by_cases hlen : (s.filter Char.isDigit).length = 10
  · rw [if_pos hlen]
    by_cases hzero : (s.filter Char.isDigit).getD 0 ' ' = '0'
    · rw [if_pos hzero, decide_eq_true hlen, decide_eq_true hzero]
      simp
    · rw [if_neg hzero, decide_eq_true hlen, decide_eq_false hzero]
      simp only [Bool.not_false, Bool.true_and, Bool.and_true]
      simp only [expectedCheck, luhnChecksum, luhnLoop_eq_claimSum]
      exact decide_eq_decide.mpr eq_comm
  · rw [if_neg hlen, decide_eq_false hlen]
    simp

/-- C6: when a non-empty organisation number fails checksum validation, the
report records an error-severity finding against the `org_number` field and the
validity flag is false, while every numeric total and the journal entries are
the same as they would be with a valid organisation number; and for every
input the validity flag is true exactly when no error-severity finding
exists. -/
theorem c6_invalid_org_effects (rows : List VP.Row) (orgBad orgGood : List Char)
    (hne : orgBad ≠ []) (hbad : VP.validate_org_number orgBad = false)
    (hgood : VP.validate_org_number orgGood = true) :
    (⟨"org_number", "error"⟩ : VP.ValidationError) ∈
      (VP.process_transactions rows orgBad).validations
    ∧ (VP.process_transactions rows orgBad).is_valid = false
    ∧ (VP.process_transactions rows orgBad).totals =
      (VP.process_transactions rows orgGood).totals
    ∧ (VP.process_transactions rows orgBad).total_outgoing_vat =
      (VP.process_transactions rows orgGood).total_outgoing_vat
    ∧ (VP.process_transactions rows orgBad).net_vat =
      (VP.process_transactions rows orgGood).net_vat
    ∧ (VP.process_transactions rows orgBad).journal_entries =
      (VP.process_transactions rows orgGood).journal_entries
    ∧ (∀ (rows2 : List VP.Row) (org2 : List Char),
        (VP.process_transactions rows2 org2).is_valid =
          !((VP.process_transactions rows2 org2).validations.any
              (fun v => v.severity == "error"))) := by
  have hof : VP.org_findings orgBad = [⟨"org_number", "error"⟩] := by
    simp [VP.org_findings, hne, hbad]
  have hvals := VP.process_validations_def rows orgBad
  rw [hof] at hvals
  refine ⟨?_, ?_, (VP.process_org_indep rows orgBad orgGood).1,
    (VP.process_org_indep rows orgBad orgGood).2.1,
    (VP.process_org_indep rows orgBad orgGood).2.2.1,
    (VP.process_org_indep rows orgBad orgGood).2.2.2,
    fun rows2 org2 => rfl⟩
  · rw [hvals]
    exact List.mem_append_left _ (List.mem_singleton_self _)
  · have : (VP.process_transactions rows orgBad).is_valid =
        !((VP.process_transactions rows orgBad).validations.any
            (fun v => v.severity == "error")) := rfl
    rw [this, hvals]
    simp

/-- C6 (witness): the organisation number `1234567890` fails the Luhn check and
`1234567897` passes it. -/
theorem c6_invalid_org_effects_witness :
    "1234567890".toList ≠ []
    ∧ VP.validate_org_number "1234567890".toList = false
    ∧ VP.validate_org_number "1234567897".toList = true
    ∧ (⟨"org_number", "error"⟩ : VP.ValidationError) ∈
        (VP.process_transactions [] "1234567890".toList).validations
    ∧ (VP.process_transactions [] "1234567890".toList).is_valid = false :=
  ⟨by decide, by decide, by decide,
    (c6_invalid_org_effects [] "1234567890".toList "1234567897".toList
      (by decide) (by decide) (by decide)).1,
    (c6_invalid_org_effects [] "1234567890".toList "1234567897".toList
      (by decide) (by decide) (by decide)).2.1⟩

/-- C10: every emitted journal entry is single-sided — its debit or its credit
is zero — with both sides non-negative; the revenue and outgoing-VAT accounts
(3010, 3011, 2611) always carry a zero debit and the cost and incoming-VAT
accounts (6590, 2641) always carry a zero credit. -/
theorem c10_entries_single_sided (rows : List VP.Row) (org : List Char)
    (e : VP.JournalEntry) (he : e ∈ (VP.process_transactions rows org).journal_entries) :
    (e.debit = 0 ∨ e.credit = 0) ∧ 0 ≤ e.debit ∧ 0 ≤ e.credit
    ∧ ((e.account = "3010" ∨ e.account = "3011" ∨ e.account = "2611") → e.debit = 0)
    ∧ ((e.account = "6590" ∨ e.account = "2641") → e.credit = 0) :=
  VP.mem_create_journal_entries (VP.process_transactions rows org).totals e he

/-- C10 (witness): the 25 % sales entry emitted for a single sale. -/
theorem c10_entries_single_sided_witness :
    (⟨"3010", "Försäljning tjänster 25% moms", 0, 100, "Intäkter med 25% moms"⟩ :
        VP.JournalEntry) ∈
      (VP.process_transactions [⟨"s1", 125, 100, 25, 25⟩] []).journal_entries
    ∧ (((0 : ℚ) = 0 ∨ (100 : ℚ) = 0) ∧ (0 : ℚ) ≤ 0 ∧ (0 : ℚ) ≤ 100
      ∧ ((("3010" : String) = "3010" ∨ ("3010" : String) = "3011" ∨
          ("3010" : String) = "2611") → (0 : ℚ) = 0)
      ∧ ((("3010" : String) = "6590" ∨ ("3010" : String) = "2641") → (100 : ℚ) = 0)) :=
  ⟨by decide,
    c10_entries_single_sided [⟨"s1", 125, 100, 25, 25⟩] []
      ⟨"3010", "Försäljning tjänster 25% moms", 0, 100, "Intäkter med 25% moms"⟩ (by decide)⟩

/-- C8 (counterexample): the claim "two serializations of the same report are
byte-identical except for the `#GEN` header line" is false.  The verification
line is also stamped with the current date (`add_verification` is called with
`datetime.now()`), so for a report with one journal entry, two runs dated
20250101 and 20250102 still differ after the `#GEN` line (line index 4) is
removed from both. -/
theorem c8_sie_gen_line_cex :
    (SIE.create_sie_from_vat_report
        ⟨"AB", "556183-9191", "2025-11",
          [⟨"3010", "Försäljning tjänster 25% moms", 0, 100, "x"⟩]⟩ 2025 1 "20250101")[4]? =
      some ("#GEN 20250101".toList)
    ∧ ¬ ((SIE.create_sie_from_vat_report
        ⟨"AB", "556183-9191", "2025-11",
          [⟨"3010", "Försäljning tjänster 25% moms", 0, 100, "x"⟩]⟩ 2025 1 "20250101").eraseIdx 4 =
      (SIE.create_sie_from_vat_report
        ⟨"AB", "556183-9191", "2025-11",
          [⟨"3010", "Försäljning tjänster 25% moms", 0, 100, "x"⟩]⟩ 2025 1 "20250102").eraseIdx 4) := by
  constructor
  · decide
  · decide

/-- C8 (amended): two serializations of the same report differ only in the
lines whose text carries the generation date — the `#GEN` header line and the
`#VER` verification lines: blanking exactly those lines makes the two outputs
identical, line for line (in particular every `#KONTO`, `#TRANS`, header and
delimiter line is byte-identical across runs, and runs on the same date are
fully identical). -/
theorem c8_sie_date_lines (rep : SIE.VatReportObj) (year : Int) (vn : Int) (d1 d2 : String) :
    (SIE.create_sie_from_vat_report rep year vn d1).map SIE.date_redact =
      (SIE.create_sie_from_vat_report rep year vn d2).map SIE.date_redact := by
  unfold SIE.create_sie_from_vat_report SIE.export_sie
  dsimp only
  by_cases htr :
      rep.journal_entries.map (fun en => (⟨en.account, en.debit, en.credit⟩ : SIE.SIETrans)) = []
  · rw [htr]
    rfl
  · rw [if_pos htr, if_pos htr]
    rfl

end Veridat
